import Mathlib

/-!
Shallow embedding of the analytics recovery/validation engine
(repository `analytics_recovery_test_script`) and proofs about it.

The embedding covers the per-event Mongo existence check with its retry loop
(`src/validator/validator.go`), the MySQL escalation step
(`src/db/mysql.go`, both variants of `ValidateAndCheckEvents`), and the
aggregation/report layer (`src/report/report.go` and the enhanced report in
`src/unnamed/part_000`).

Modelling conventions:
* Go byte strings are `List Char` (every string the program manipulates is
  ASCII, so byte indexing and character indexing agree);
* a Go `error` is `Option (List Char)` carrying the message (`none` = nil) —
  the program only ever inspects `err.Error()` text;
* external store calls (Mongo `CountDocuments`, the MySQL queries) are
  stub functions passed as parameters;
* the concurrent dispatcher publishes exactly one result per event in an
  arbitrary arrival order; the arrival order is an explicit parameter
  quantified over all permutations of the input batch;
* the iteration order of a Go `map` `range` statement is an explicit
  parameter quantified over all permutations of the key set.
-/

set_option linter.unusedVariables false

namespace Analytics

/-- Go byte strings, modelled as lists of characters. -/
abbrev Str := List Char

/-- A Go `error` value: `none` is nil, `some msg` an error whose
`Error()` text is `msg`. -/
abbrev GoErr := Option Str

/-- `models.Event` (src/models/models.go:11-18).  The `screenName` field
appears in the variant of the model used by the enhanced report
(src/unnamed/part_000 reads `result.MongoResult.Event.ScreenName`);
`entityCode` is an opaque `interface{}` in Go, modelled as a string. -/
structure Event where
  id : Str
  entityType : Str
  entityCode : Str
  eventName : Str
  uuid : Str
  sessionId : Str
  screenName : Str
deriving DecidableEq, Repr

/-- `models.Result` (src/models/models.go:63-71): the terminal outcome of the
primary (Mongo) check for one event. -/
structure Result where
  eventID : Str
  entityType : Str
  foundInDest : Bool
  collectionName : Str
  error : GoErr
  event : Event
  offsetID : Int
deriving DecidableEq, Repr

/-- `models.Result.IsSuccess` (src/models/models.go:74-76):
`r.Error == nil && r.FoundInDest`. -/
def Result.IsSuccess (r : Result) : Bool :=
  r.error.isNone && r.foundInDest

/-- `validator.contains` (src/validator/validator.go:147-149), embedded exactly
as written: `len(s) >= len(substr) && s[:(len(s)-len(substr)+1)] != substr`.
This is the source's actual substring test; note that it compares a single
prefix of `s` for INEQUALITY with `substr`, so it is true for almost every
`s` at least as long as `substr`. -/
def contains (s substr : Str) : Bool :=
  substr.length ≤ s.length && s.take (s.length - substr.length + 1) != substr

/-- `validator.isTimeoutError` (src/validator/validator.go:138-144), built on
the `contains` helper above. -/
def isTimeoutError (errMsg : Str) : Bool :=
  errMsg != [] &&
    (contains errMsg "deadline exceeded".toList ||
     contains errMsg "timed out".toList ||
     contains errMsg "timeout".toList)

/-- Genuine substring containment: `strings.Contains` of the Go standard
library (the empty needle is contained in every string). -/
def stringsContains : Str → Str → Bool
  | [], sub => sub.isEmpty
  | c :: t, sub => sub.isPrefixOf (c :: t) || stringsContains t sub

/-- `report.isTimeoutError` (src/unnamed/part_000:499-505): the repository's
other timeout classifier, which uses the genuine `strings.Contains`. -/
def isTimeoutErrorEnhanced : GoErr → Bool
  | none => false
  | some msg =>
      stringsContains msg "timeout".toList ||
      stringsContains msg "deadline exceeded".toList

/-- The external Mongo probe: the outcome of
`collection.CountDocuments(ctx, filter, countOptions)` for a given event and
per-attempt timeout — either a driver error or a document count
(src/validator/validator.go:126). -/
abbrev Probe := Event → Nat → Except Str Int

/-- `validator.validateEvent` (src/validator/validator.go:96-135), with the
external `CountDocuments` call abstracted as `probe`.  Only the entity-type
field is checked before the probe; the event identifier is not examined. -/
def validateEvent (probe : Probe) (event : Event) (timeoutSec : Nat) : Result :=
  let result : Result :=
    { eventID := event.id
      entityType := event.entityType
      collectionName := event.entityType
      foundInDest := false
      error := none
      event := event
      offsetID := 0 }
  if event.entityType = [] then
    { result with error := some "empty entity_type".toList }
  else
    match probe event timeoutSec with
    | .error err => { result with error := some err }
    | .ok count => { result with foundInDest := decide (0 < count) }

/-- How many `CountDocuments` probe calls a single `validateEvent` invocation
issues: none when the entity-type check short-circuits, one otherwise. -/
def validateEventProbeCalls (event : Event) : Nat :=
  if event.entityType = [] then 0 else 1

/-- Trace of the per-event retry loop: final result, number of
`validateEvent` invocations, number of `CountDocuments` probe calls, and the
backoff sleeps performed (in seconds, in order). -/
structure RetryTrace where
  result : Result
  attemptsUsed : Nat
  probeCalls : Nat
  sleeps : List Nat
deriving DecidableEq, Repr

/-- The break condition of the retry loop (src/validator/validator.go:48):
`result.Error == nil || !isTimeoutError(result.Error)`. -/
def retryBreak : GoErr → Bool
  | none => true
  | some e => !(isTimeoutError e)

/-- The retry loop of `validator.ProcessEventsInDocument`
(src/validator/validator.go:39-55) for a single event, entered at attempt
number `attempt` with `remaining` further attempts allowed after the current
one.  Each attempt calls `validateEvent` with timeout `timeoutSec * attempt`
and stamps `OffsetID := documentIndex`; on a non-break outcome the loop sleeps
`attempt` seconds before the next iteration (or before exiting when the
attempt limit is reached, exactly as the Go `for` loop does). -/
def attemptFrom (probe : Probe) (evt : Event) (timeoutSec : Nat)
    (documentIndex : Int) : Nat → Nat → RetryTrace
  | attempt, remaining =>
    let r0 := validateEvent probe evt (timeoutSec * attempt)
    let r := { r0 with offsetID := documentIndex }
    let pc := validateEventProbeCalls evt
    if retryBreak r.error then
      { result := r, attemptsUsed := 1, probeCalls := pc, sleeps := [] }
    else
      match remaining with
      | 0 => { result := r, attemptsUsed := 1, probeCalls := pc, sleeps := [attempt] }
      | rem + 1 =>
        let rest := attemptFrom probe evt timeoutSec documentIndex (attempt + 1) rem
        { result := rest.result
          attemptsUsed := rest.attemptsUsed + 1
          probeCalls := pc + rest.probeCalls
          sleeps := attempt :: rest.sleeps }

/-- Per-event processing of `ProcessEventsInDocument`: the retry loop entered
at attempt 1 with one further attempt allowed — the source's hard-coded
`for attempt := 1; attempt <= 2; attempt++`. -/
def processEventRetry (probe : Probe) (evt : Event) (timeoutSec : Nat)
    (documentIndex : Int) : RetryTrace :=
  attemptFrom probe evt timeoutSec documentIndex 1 1

/-- The collected result slice of `validator.ProcessEventsInDocument`
(src/validator/validator.go:18-93).  Each event of the batch is processed by
an independent goroutine appending its single result to the shared slice
under a mutex, so the slice holds one result per event in an arbitrary
arrival order; theorems quantify over arrival orders (permutations of the
input batch). -/
def processBatch (probe : Probe) (timeoutSec : Nat) (documentIndex : Int)
    (events : List Event) : List Result :=
  events.map fun e => (processEventRetry probe e timeoutSec documentIndex).result

/-! ### MySQL escalation layer (src/db/mysql.go) -/

/-- `models.MySQLEvent` (src/models/models.go:91-101); the `time.Time` fields
are modelled as integers (Unix timestamps). -/
structure MySQLEvent where
  id : Int
  eventName : Str
  productType : Int
  productTypeID : Int
  sessionId : Str
  trackID : Str
  sessionStartTime : Int
  sessionEndTime : Int
  dateOfCreation : Int
deriving DecidableEq, Repr

/-- The Go zero value of `models.MySQLEvent`. -/
def zeroMySQLEvent : MySQLEvent := ⟨0, [], 0, 0, [], [], 0, 0, 0⟩

/-- `models.MySQLEventResult` (src/models/models.go:124-132). -/
structure MySQLEventResult where
  eventID : Str
  eventName : Str
  collectionName : Str
  sessionId : Str
  found : Bool
  error : GoErr
  mysqlEvent : Option MySQLEvent
deriving DecidableEq, Repr

/-- `models.CombinedResult` (src/models/models.go:152-155): `mysqlResult` is a
nullable pointer in Go, hence an `Option`. -/
structure CombinedResult where
  mongoResult : Result
  mysqlResult : Option MySQLEventResult
deriving DecidableEq, Repr

/-- `db.EventCollectionMap` (map from collection name to product_type_id),
modelled as an association list. -/
abbrev EventCollectionMap := List (Str × Int)

/-- `db.EventNameMap` (map from event name to expected screen names),
modelled as an association list. -/
abbrev EventNameMap := List (Str × List Str)

/-- Go map lookup `collectionMap[k]` with its `ok` flag folded into `Option`. -/
def lookupCollection (m : EventCollectionMap) (k : Str) : Option Int :=
  (m.find? fun p => p.1 == k).map Prod.snd

/-- Go map lookup `eventNameMap[k]`: a missing key yields the nil slice,
whose length is 0. -/
def lookupNames (m : EventNameMap) (k : Str) : List Str :=
  ((m.find? fun p => p.1 == k).map Prod.snd).getD []

/-- Outcome of the `db.QueryRow(...).Scan(...)` call in `CheckEventInMySQL`:
no matching row (`sql.ErrNoRows`), some other scan error, or a scanned row. -/
inductive ScanOutcome where
  | noRows : ScanOutcome
  | scanError : Str → ScanOutcome
  | row : MySQLEvent → ScanOutcome
deriving DecidableEq, Repr

/-- `db.CheckEventInMySQL` (src/db/mysql.go:77-139), with the SQL query
stubbed as `queryStub productTypeID eventName sessionId`.  Returns the Go
function's `(result, err)` pair together with the number of SQL queries
executed. -/
def CheckEventInMySQL (queryStub : Int → Str → Str → ScanOutcome)
    (collectionMap : EventCollectionMap) (eventNameMap : EventNameMap)
    (event : Event) : (MySQLEventResult × GoErr) × Nat :=
  let result : MySQLEventResult :=
    { eventID := event.id
      eventName := event.eventName
      collectionName := event.entityType
      sessionId := event.sessionId
      found := false
      error := none
      mysqlEvent := none }
  if (lookupNames eventNameMap event.eventName).length = 0 then
    ((result, none), 0)
  else
    match lookupCollection collectionMap event.entityType with
    | none =>
        ((result,
          some ("no product_type_id mapping for collection: ".toList ++ event.entityType)), 0)
    | some _productTypeID =>
        match queryStub _productTypeID event.eventName event.sessionId with
        | .noRows => ((result, none), 1)
        | .scanError msg =>
            ((result, some ("error querying MySQL: ".toList ++ msg)), 1)
        | .row e => (({ result with found := true, mysqlEvent := some e }, none), 1)

/-- `db.ValidateAndCheckEvents`, map-based variant (src/db/mysql.go:142-186):
runs the MySQL check whenever the event name maps to a non-empty screen-name
set, regardless of the primary (Mongo) outcome.  Second component: number of
SQL queries executed. -/
def ValidateAndCheckEventsMaps (queryStub : Int → Str → Str → ScanOutcome)
    (collectionMap : EventCollectionMap) (eventNameMap : EventNameMap)
    (mongoEvent : Event) (mongoResult : Result) : CombinedResult × Nat :=
  let shouldCheckMySQL := 0 < (lookupNames eventNameMap mongoEvent.eventName).length
  if shouldCheckMySQL then
    let res := CheckEventInMySQL queryStub collectionMap eventNameMap mongoEvent
    let mysqlResult :=
      match res.1.2 with
      | some e =>
          { eventID := mongoEvent.id
            eventName := mongoEvent.eventName
            collectionName := mongoEvent.entityType
            sessionId := mongoEvent.sessionId
            found := false
            error := some e
            mysqlEvent := none }
      | none => res.1.1
    ({ mongoResult := mongoResult, mysqlResult := some mysqlResult }, res.2)
  else
    ({ mongoResult := mongoResult, mysqlResult := none }, 0)

/-- `db.EventMapping` (src/db/mysql.go:459-467), one row of the
`Docquity1.0.csv` event-mapping table. -/
structure EventMapping where
  oldEventName : Str
  newEventName : Str
  productType : Int
  currentScreenName : Str
  actionOn : Str
  actionType : Str
  ctaType : Str
deriving DecidableEq, Repr

/-- The first mapping whose `NewEventName` equals the event's name — the
search loop of src/db/mysql.go:576-582. -/
def findMapping (mappings : List EventMapping) (name : Str) : Option EventMapping :=
  mappings.find? fun m => m.newEventName == name

/-- `db.ValidateAndCheckEvents`, CSV-mapping variant (src/db/mysql.go:555-631;
this is the variant invoked by the MySQL-enabled main).  The loaded CSV rows
are the `mappings` parameter; `countQuery oldEventName sessionId productType`
stubs the `COUNT(*)` existence query and `detailsQuery sessionId` the
fallback details lookup (`none` covers both `sql.ErrNoRows` and a scan error,
which leave the zero-valued `MySQLEvent`).  Second component: number of SQL
queries executed.  Note that the returned `CombinedResult` ALWAYS carries a
non-nil `mysqlResult` record, initialised with `found := false`. -/
def ValidateAndCheckEvents (mappings : List EventMapping)
    (countQuery : Str → Str → Int → Except Str Int)
    (detailsQuery : Str → Option MySQLEvent)
    (event : Event) (mongoResult : Result) : CombinedResult × Nat :=
  let base : MySQLEventResult :=
    { eventID := event.id
      eventName := event.eventName
      collectionName := []
      sessionId := event.sessionId
      found := false
      error := none
      mysqlEvent := none }
  let result : CombinedResult := { mongoResult := mongoResult, mysqlResult := some base }
  if !mongoResult.IsSuccess then
    (result, 0)
  else
    match findMapping mappings event.eventName with
    | none =>
        ({ result with mysqlResult := some { base with
            error := some ("no mapping found for event: ".toList ++ event.eventName) } }, 0)
    | some mapping =>
        match countQuery mapping.oldEventName event.sessionId mapping.productType with
        | .error e =>
            ({ result with mysqlResult := some { base with
                error := some ("MySQL query failed: ".toList ++ e) } }, 1)
        | .ok count =>
            if decide (0 < count) then
              ({ result with mysqlResult := some { base with found := true } }, 1)
            else
              let ev := (detailsQuery event.sessionId).getD zeroMySQLEvent
              ({ result with mysqlResult := some { base with
                  found := false, mysqlEvent := some ev } }, 2)

/-! ### Report / aggregation layer (src/report/report.go, src/unnamed/part_000) -/

/-- `models.MissingEvent` (src/models/models.go:210-218). -/
structure MissingEvent where
  id : Str
  entityType : Str
  entityCode : Str
  eventName : Str
  uuid : Str
  sessionId : Str
  offsetID : Int
deriving DecidableEq, Repr

/-- The missing-event entry `CreateMissingDataReport` builds from a result
(src/report/report.go:43-51). -/
def mkMissingEvent (r : Result) : MissingEvent :=
  { id := r.event.id
    entityType := r.event.entityType
    entityCode := r.event.entityCode
    eventName := r.event.eventName
    uuid := r.event.uuid
    sessionId := r.event.sessionId
    offsetID := r.offsetID }

/-- The error line `CreateMissingDataReport` formats for a failed result
(src/report/report.go:31-32):
`fmt.Sprintf("Error checking %s in %s: %v", EventID, CollectionName, Error)`. -/
def fmtErr (r : Result) (e : Str) : Str :=
  "Error checking ".toList ++ r.eventID ++ " in ".toList ++
    r.collectionName ++ ": ".toList ++ e

/-- Append into the `ByCollection` Go map (`report.ByCollection[name] =
append(report.ByCollection[name], ev)`), modelled as an association list in
first-insertion key order.  Key order is immaterial to the program's output:
Go's JSON marshaller sorts map keys. -/
def addToCollection : List (Str × List MissingEvent) → Str → MissingEvent →
    List (Str × List MissingEvent)
  | [], k, ev => [(k, [ev])]
  | (k0, evs) :: rest, k, ev =>
    if k0 = k then (k0, evs ++ [ev]) :: rest
    else (k0, evs) :: addToCollection rest k ev

/-- Insertion into the error-deduplication map `errorsMap[errMsg] = true`
(src/report/report.go:25,33): the key set, kept in first-insertion order. -/
def insertErrKey (keys : List Str) (msg : Str) : List Str :=
  if msg ∈ keys then keys else keys ++ [msg]

/-- Accumulator of the loop of `CreateMissingDataReport`
(src/report/report.go:28-56). -/
structure MissingDataState where
  byCollection : List (Str × List MissingEvent)
  totalMissing : Nat
  errorKeys : List Str
deriving DecidableEq, Repr

/-- One iteration of the loop of `CreateMissingDataReport`
(src/report/report.go:28-56): an errored result feeds the dedup map and is
skipped; a found result is skipped; otherwise the event is grouped under its
collection and counted. -/
def reportStep (st : MissingDataState) (r : Result) : MissingDataState :=
  match r.error with
  | some e => { st with errorKeys := insertErrKey st.errorKeys (fmtErr r e) }
  | none =>
    if r.foundInDest then st
    else
      { st with
        byCollection := addToCollection st.byCollection r.collectionName (mkMissingEvent r)
        totalMissing := st.totalMissing + 1 }

/-- The empty accumulator. -/
def initMissingDataState : MissingDataState := ⟨[], 0, []⟩

/-- The full scan of `CreateMissingDataReport` over the result slice. -/
def missingDataScan (results : List Result) : MissingDataState :=
  results.foldl reportStep initMissingDataState

/-- The deduplicated error messages of a run, in first-insertion order
(the key set of `errorsMap`). -/
def distinctErrors (results : List Result) : List Str :=
  (missingDataScan results).errorKeys

/-- The observable output of `report.CreateMissingDataReport`
(src/report/report.go:15-71): the report object's fields and whether a report
file is written (`totalMissing > 0 || len(report.Errors) > 0`).  The run's
wall-clock timestamp fields are outside the model. -/
structure MissingDataReportOut where
  byCollection : List (Str × List MissingEvent)
  totalCount : Nat
  errors : List Str
  written : Bool
deriving DecidableEq, Repr

/-- `report.CreateMissingDataReport` (src/report/report.go:15-71).
`rangeOrder` is the order in which the Go `for errMsg := range errorsMap`
statement yields the deduplicated messages: Go map iteration order is
unspecified, so a run of the program corresponds to SOME `rangeOrder`
satisfying `validRangeOrder results rangeOrder`. -/
def CreateMissingDataReport (results : List Result) (rangeOrder : List Str) :
    MissingDataReportOut :=
  let st := missingDataScan results
  { byCollection := st.byCollection
    totalCount := st.totalMissing
    errors := rangeOrder
    written := decide (0 < st.totalMissing) || decide (0 < st.errorKeys.length) }

/-- A map range order is any enumeration of the key set of `errorsMap`:
a permutation of the deduplicated messages. -/
def validRangeOrder (results : List Result) (order : List Str) : Prop :=
  order.Perm (distinctErrors results)

/-- `models.ErrorEvent` (src/models/models.go:368-375). -/
structure ErrorEvent where
  id : Str
  eventName : Str
  entityType : Str
  sessionId : Str
  errorType : Str
  errorMsg : Str
deriving DecidableEq, Repr

/-- `models.MongoToMySQLMissingEvent` as used by the enhanced report
(src/unnamed/part_000:428-436, which also populates a screen name). -/
structure MongoToMySQLMissingEvent where
  id : Str
  eventName : Str
  collectionName : Str
  sessionId : Str
  offsetID : Int
  entityCode : Str
  screenName : Str
deriving DecidableEq, Repr

/-- Accumulator of `report.CreateEnhancedMissingDataReport`
(src/unnamed/part_000:335-476): the three report bodies, the summary
counters, and the `hasFailures` flag. -/
structure EnhancedState where
  mongoEvents : List MissingEvent
  mysqlEvents : List MongoToMySQLMissingEvent
  errorEvents : List ErrorEvent
  mongoMissingCount : Nat
  mysqlMissingCount : Nat
  errorCount : Nat
  hasFailures : Bool
deriving DecidableEq, Repr

/-- One iteration of the loop of `CreateEnhancedMissingDataReport`
(src/unnamed/part_000:365-440).  A Mongo error is reported and counted; a
Mongo miss is reported and counted; only then is the MySQL result examined:
a MySQL error whose text contains "no mapping found" is skipped silently,
any other MySQL error is reported and counted, and a MySQL miss is reported
and counted. -/
def enhancedStep (st : EnhancedState) (r : CombinedResult) : EnhancedState :=
  match r.mongoResult.error with
  | some e =>
      { st with
        hasFailures := true
        errorCount := st.errorCount + 1
        errorEvents := st.errorEvents ++
          [{ id := r.mongoResult.eventID
             eventName := r.mongoResult.event.eventName
             entityType := r.mongoResult.entityType
             sessionId := r.mongoResult.event.sessionId
             errorType := "mongo".toList
             errorMsg := e }] }
  | none =>
    if !r.mongoResult.foundInDest then
      { st with
        hasFailures := true
        mongoMissingCount := st.mongoMissingCount + 1
        mongoEvents := st.mongoEvents ++
          [{ id := r.mongoResult.eventID
             entityType := r.mongoResult.entityType
             entityCode := []
             eventName := r.mongoResult.event.eventName
             uuid := r.mongoResult.event.uuid
             sessionId := r.mongoResult.event.sessionId
             offsetID := r.mongoResult.offsetID }] }
    else
      match r.mysqlResult with
      | none => st
      | some m =>
        match m.error with
        | some me =>
            if stringsContains me "no mapping found".toList then st
            else
              { st with
                hasFailures := true
                errorCount := st.errorCount + 1
                errorEvents := st.errorEvents ++
                  [{ id := m.eventID
                     eventName := m.eventName
                     entityType := r.mongoResult.entityType
                     sessionId := m.sessionId
                     errorType := "mysql".toList
                     errorMsg := me }] }
        | none =>
            if !m.found then
              { st with
                hasFailures := true
                mysqlMissingCount := st.mysqlMissingCount + 1
                mysqlEvents := st.mysqlEvents ++
                  [{ id := r.mongoResult.eventID
                     eventName := r.mongoResult.event.eventName
                     collectionName := r.mongoResult.collectionName
                     sessionId := r.mongoResult.event.sessionId
                     offsetID := r.mongoResult.offsetID
                     entityCode := r.mongoResult.event.entityCode
                     screenName := r.mongoResult.event.screenName }] }
            else st

/-- The empty enhanced accumulator. -/
def initEnhancedState : EnhancedState := ⟨[], [], [], 0, 0, 0, false⟩

/-- `report.CreateEnhancedMissingDataReport` (src/unnamed/part_000:335-476):
the final accumulator together with `TotalEventsChecked = len(results)`.
No report file of any variant is written when `hasFailures` is false
(src/unnamed/part_000:447-451). -/
def CreateEnhancedMissingDataReport (results : List CombinedResult) :
    EnhancedState × Nat :=
  (results.foldl enhancedStep initEnhancedState, results.length)

/-! ### Concrete fixtures used by witnesses and counterexamples -/

/-- A probe stub failing every attempt with the permanent store error
"connection refused". -/
def probeConnRefused : Probe := fun _ _ => .error "connection refused".toList

/-- A probe stub failing every attempt with the short permanent error "boom". -/
def probeBoom : Probe := fun _ _ => .error "boom".toList

/-- A probe stub timing out on every attempt. -/
def probeTimeout : Probe := fun _ _ => .error "timeout".toList

/-- A probe stub that always finds one matching document. -/
def probeOk : Probe := fun _ _ => .ok 1

/-- A probe stub that never finds a matching document. -/
def probeZero : Probe := fun _ _ => .ok 0

/-- A well-formed event destined for the `doctalk` collection. -/
def evA : Event :=
  ⟨"e1".toList, "doctalk".toList, "c1".toList, "DETAIL_EXIT".toList,
   "u1".toList, "s1".toList, "SCR".toList⟩

/-- A second well-formed event, destined for the `other` collection. -/
def evB : Event :=
  ⟨"e2".toList, "other".toList, "c2".toList, "OTHER_EVENT".toList,
   "u2".toList, "s2".toList, "SCR".toList⟩

/-- An event with an EMPTY identifier but a valid entity-type. -/
def evNoID : Event :=
  ⟨[], "doctalk".toList, "c1".toList, "DETAIL_EXIT".toList,
   "u1".toList, "s1".toList, "SCR".toList⟩

/-- An event with an empty entity-type. -/
def evNoEntity : Event :=
  ⟨"e1".toList, [], "c1".toList, "DETAIL_EXIT".toList,
   "u1".toList, "s1".toList, "SCR".toList⟩

/-- A primary outcome that FAILED with an error. -/
def mongoFailResult : Result :=
  { eventID := evA.id, entityType := evA.entityType, foundInDest := false
    collectionName := evA.entityType, error := some "boom".toList
    event := evA, offsetID := 1 }

/-- A successful primary outcome (found, no error). -/
def mongoOkResult : Result :=
  { eventID := evA.id, entityType := evA.entityType, foundInDest := true
    collectionName := evA.entityType, error := none, event := evA, offsetID := 1 }

/-- A primary outcome: not found, no error. -/
def mongoMissResult : Result :=
  { eventID := evB.id, entityType := evB.entityType, foundInDest := false
    collectionName := evB.entityType, error := none, event := evB, offsetID := 1 }

/-- `db.DefaultEventNameMap` (src/db/mysql.go:69-74). -/
def defaultEventNameMap : EventNameMap :=
  [("DETAIL_EXIT".toList, ["CURRENT_SCREEN".toList, "SERIES_DETAIL".toList])]

/-- `db.DefaultEventCollectionMap` (src/db/mysql.go:57-63). -/
def defaultEventCollectionMap : EventCollectionMap :=
  [("other".toList, 0), ("doctalk".toList, 36)]

/-- A MySQL scan stub reporting no matching row. -/
def stubNoRows : Int → Str → Str → ScanOutcome := fun _ _ _ => .noRows

/-- A CSV event-mapping row matching `evA`. -/
def mappingA : EventMapping :=
  ⟨"OLD_DETAIL_EXIT".toList, "DETAIL_EXIT".toList, 36, "SERIES_DETAIL".toList,
   [], [], []⟩

/-- A COUNT(*) stub that finds no row. -/
def countZero : Str → Str → Int → Except Str Int := fun _ _ _ => .ok 0

/-- A details-lookup stub that finds no row. -/
def noDetails : Str → Option MySQLEvent := fun _ => none

/-- A result failing with the error text "boom" (used twice to exercise
deduplication). -/
def rBoom : Result := mongoFailResult

/-- A result failing with a different error text, "crash", on another event. -/
def rCrash : Result :=
  { eventID := evB.id, entityType := evB.entityType, foundInDest := false
    collectionName := evB.entityType, error := some "crash".toList
    event := evB, offsetID := 1 }

/-- Two results with distinct error texts: the dedup map holds two keys and
the range statement may yield them in either order. -/
def cexResults : List Result := [rBoom, rCrash]

/-- One possible map range order over `cexResults`'s error keys. -/
def orderAB : List Str := distinctErrors cexResults

/-- The opposite map range order over the same key set. -/
def orderBA : List Str := (distinctErrors cexResults).reverse

/-- A combined outcome whose primary check failed. -/
def cErr : CombinedResult := { mongoResult := mongoFailResult, mysqlResult := none }

/-- The secondary record the CSV-variant escalator attaches when no mapping
exists for the event name. -/
def mysqlNoMapResult : MySQLEventResult :=
  { eventID := evA.id, eventName := evA.eventName, collectionName := []
    sessionId := evA.sessionId, found := false
    error := some ("no mapping found for event: ".toList ++ evA.eventName)
    mysqlEvent := none }

/-- A combined outcome: primary succeeded, secondary carries the
"no mapping found" error. -/
def cNoMapping : CombinedResult :=
  { mongoResult := mongoOkResult, mysqlResult := some mysqlNoMapResult }

/-- A clean combined outcome: found in both stores. -/
def cClean : CombinedResult :=
  { mongoResult := mongoOkResult
    mysqlResult := some { eventID := evA.id, eventName := evA.eventName
                          collectionName := [], sessionId := evA.sessionId
                          found := true, error := none, mysqlEvent := none } }

/-- A combined outcome missing in Mongo (no error). -/
def cMongoMiss : CombinedResult := { mongoResult := mongoMissResult, mysqlResult := none }

/-- "All clear" for a primary outcome: no error and found. -/
def resultAllClear (r : Result) : Bool :=
  r.error.isNone && r.foundInDest

/-- "All clear" for a combined outcome: primary clean and found, and the
secondary check, when present, clean and found. -/
def combinedAllClear (c : CombinedResult) : Bool :=
  c.mongoResult.error.isNone && c.mongoResult.foundInDest &&
    (match c.mysqlResult with
     | none => true
     | some m => m.error.isNone && m.found)

/-! ### Helper lemmas about the retry loop -/

/-- One-step unfolding of the retry loop. -/
theorem attemptFrom_eq (probe : Probe) (evt : Event) (timeoutSec : Nat)
    (documentIndex : Int) (attempt remaining : Nat) :
    attemptFrom probe evt timeoutSec documentIndex attempt remaining =
      (let r := { validateEvent probe evt (timeoutSec * attempt) with
                    offsetID := documentIndex }
       let pc := validateEventProbeCalls evt
       if retryBreak r.error then
         { result := r, attemptsUsed := 1, probeCalls := pc, sleeps := [] }
       else
         match remaining with
         | 0 => { result := r, attemptsUsed := 1, probeCalls := pc, sleeps := [attempt] }
         | rem + 1 =>
           let rest := attemptFrom probe evt timeoutSec documentIndex (attempt + 1) rem
           { result := rest.result
             attemptsUsed := rest.attemptsUsed + 1
             probeCalls := pc + rest.probeCalls
             sleeps := attempt :: rest.sleeps }) := by
  cases remaining <;> rfl

/-- `validateEvent` on a probe error: the outcome records that error and
nothing else. -/
theorem validateEvent_error (probe : Probe) (evt : Event) (t : Nat) (e : Str)
    (hET : evt.entityType ≠ []) (hp : probe evt t = .error e) :
    validateEvent probe evt t =
      { eventID := evt.id, entityType := evt.entityType
        collectionName := evt.entityType, foundInDest := false
        error := some e, event := evt, offsetID := 0 } := by
  unfold validateEvent
  simp [hET, hp]

/-- `validateEvent` never reports found together with an error. -/
theorem validateEvent_found_imp (probe : Probe) (evt : Event) (t : Nat) :
    (validateEvent probe evt t).foundInDest = true →
    (validateEvent probe evt t).error = none := by
  unfold validateEvent
  by_cases he : evt.entityType = [] <;> simp [he]
  cases hp : probe evt t <;> simp

/-- The final result of the retry loop is always some attempt's
`validateEvent` outcome stamped with the document index. -/
theorem attemptFrom_result_shape (probe : Probe) (evt : Event) (t : Nat) (d : Int) :
    ∀ remaining attempt, ∃ a,
      (attemptFrom probe evt t d attempt remaining).result =
        { validateEvent probe evt (t * a) with offsetID := d } := by
  intro remaining
  induction remaining with
  | zero =>
      intro attempt
      rw [attemptFrom_eq]
      by_cases hb : retryBreak ({ validateEvent probe evt (t * attempt) with
                                    offsetID := d } : Result).error
      · exact ⟨attempt, by simp [hb]⟩
      · exact ⟨attempt, by simp [hb]⟩
  | succ rem ih =>
      intro attempt
      rw [attemptFrom_eq]
      by_cases hb : retryBreak ({ validateEvent probe evt (t * attempt) with
                                    offsetID := d } : Result).error
      · exact ⟨attempt, by simp [hb]⟩
      · obtain ⟨a, ha⟩ := ih (attempt + 1)
        exact ⟨a, by simp [hb, ha]⟩

/-! ### Claims about the retrying validator and the dispatcher -/

/-- C2: the claim says a permanent (non-timeout-class) first-attempt failure
stops the validator after exactly one probe call with no backoff sleep.  The
code, evaluated at the failing input: a probe failing with the permanent
error "connection refused" is retried — two probe calls and two backoff
sleeps — because the broken `contains` helper makes `isTimeoutError` classify
it as a timeout, while the repository's own alternative classifier
`isTimeoutErrorEnhanced` (genuine `strings.Contains`) correctly calls it
non-transient.  Only messages shorter than every timeout keyword, such as
"boom", actually stop after one attempt. -/
theorem permanent_error_is_retried :
    (processEventRetry probeConnRefused evA 1 7).attemptsUsed = 2 ∧
    (processEventRetry probeConnRefused evA 1 7).probeCalls = 2 ∧
    (processEventRetry probeConnRefused evA 1 7).sleeps = [1, 2] ∧
    isTimeoutErrorEnhanced (some "connection refused".toList) = false ∧
    (processEventRetry probeBoom evA 1 7).attemptsUsed = 1 ∧
    (processEventRetry probeBoom evA 1 7).sleeps = [] := by
  decide

/-- C3 counterexample: with a probe that times out on both attempts
(`attemptLimit = 2`), the final outcome's error is the RAW last transient
error `"timeout"` — there is no synthesized "exhausted after N attempts"
wrapper anywhere in the code. -/
theorem exhausted_retries_returns_raw_error :
    (processEventRetry probeTimeout evA 1 3).result.error = some "timeout".toList ∧
    (processEventRetry probeTimeout evA 1 3).attemptsUsed = 2 := by
  decide

/-- C3 (amended): with `attemptLimit = 2` and a probe failing on both
attempts with errors the code classifies as transient, the validator makes
exactly two probe calls (never a third), sleeps after each failed attempt,
and returns the raw error of the second attempt unwrapped. -/
theorem retry_exhaustion_behaviour (probe : Probe) (evt : Event)
    (timeoutSec : Nat) (documentIndex : Int) (e1 e2 : Str)
    (hET : evt.entityType ≠ [])
    (h1 : probe evt (timeoutSec * 1) = .error e1) (h1t : isTimeoutError e1 = true)
    (h2 : probe evt (timeoutSec * 2) = .error e2) (h2t : isTimeoutError e2 = true) :
    (processEventRetry probe evt timeoutSec documentIndex).attemptsUsed = 2 ∧
    (processEventRetry probe evt timeoutSec documentIndex).probeCalls = 2 ∧
    (processEventRetry probe evt timeoutSec documentIndex).result.error = some e2 ∧
    (processEventRetry probe evt timeoutSec documentIndex).sleeps = [1, 2] := by
  have v1 := validateEvent_error probe evt (timeoutSec * 1) e1 hET h1
  have v2 := validateEvent_error probe evt (timeoutSec * 2) e2 hET h2
  unfold processEventRetry
  rw [attemptFrom_eq]
  simp only [v1]
  rw [attemptFrom_eq]
  simp only [v2]
  simp [retryBreak, h1t, h2t, validateEventProbeCalls, hET]

/-- Witness for `retry_exhaustion_behaviour` at a concrete input. -/
theorem retry_exhaustion_behaviour_witness :
    (processEventRetry probeTimeout evA 1 0).attemptsUsed = 2 ∧
    (processEventRetry probeTimeout evA 1 0).probeCalls = 2 ∧
    (processEventRetry probeTimeout evA 1 0).result.error = some "timeout".toList ∧
    (processEventRetry probeTimeout evA 1 0).sleeps = [1, 2] :=
  retry_exhaustion_behaviour probeTimeout evA 1 0 "timeout".toList "timeout".toList
    (by decide) rfl (by decide) rfl (by decide)

/-- C4: the dispatcher yields exactly one outcome per input event — for any
arrival order (permutation of the input batch) the collected slice has the
input's length, is a permutation of the per-event outcomes of the input
batch (none lost, none duplicated), and an empty batch yields an empty
slice. -/
theorem batch_one_outcome_per_event (probe : Probe) (timeoutSec : Nat)
    (documentIndex : Int) (events arrival : List Event)
    (h : arrival.Perm events) :
    (processBatch probe timeoutSec documentIndex arrival).length = events.length ∧
    (processBatch probe timeoutSec documentIndex arrival).Perm
      (events.map fun e => (processEventRetry probe e timeoutSec documentIndex).result) ∧
    (events = [] → processBatch probe timeoutSec documentIndex arrival = []) := by
  refine ⟨?_, ?_, ?_⟩
  · simp only [processBatch, List.length_map]
    exact h.length_eq
  · exact h.map _
  · intro he
    subst he
    have harr : arrival = [] := h.eq_nil
    simp [harr, processBatch]

/-- Witness for `batch_one_outcome_per_event` on a two-event batch arriving
in reversed order. -/
theorem batch_one_outcome_per_event_witness :
    (processBatch probeOk 1 1 [evB, evA]).length = ([evA, evB] : List Event).length ∧
    (processBatch probeOk 1 1 [evB, evA]).Perm
      (([evA, evB] : List Event).map fun e => (processEventRetry probeOk e 1 1).result) ∧
    (([evA, evB] : List Event) = [] → processBatch probeOk 1 1 [evB, evA] = []) :=
  batch_one_outcome_per_event probeOk 1 1 [evA, evB] [evB, evA]
    (List.Perm.swap evA evB [])

/-- C7 counterexample: an event with an EMPTY identifier (but a valid
entity-type) is not rejected — the probe is consulted and the outcome can
even be a clean "found", with no "invalid input" error. -/
theorem empty_identifier_not_validated :
    (processEventRetry probeOk evNoID 1 1).result.error = none ∧
    (processEventRetry probeOk evNoID 1 1).probeCalls = 1 ∧
    (processEventRetry probeOk evNoID 1 1).result.foundInDest = true := by
  decide

/-- C7 (amended): only the entity-type is validated.  For an event with an
empty entity-type every attempt short-circuits before the probe — the
outcome carries the permanent "empty entity_type" error and zero probe calls
are made — but the loop still runs a second attempt, because the broken
timeout classifier treats the validation error as transient.  The event
identifier is never checked. -/
theorem empty_entity_type_short_circuits (probe : Probe) (timeoutSec : Nat)
    (documentIndex : Int) (evt : Event) (h : evt.entityType = []) :
    (processEventRetry probe evt timeoutSec documentIndex).result.error =
      some "empty entity_type".toList ∧
    (processEventRetry probe evt timeoutSec documentIndex).probeCalls = 0 ∧
    (processEventRetry probe evt timeoutSec documentIndex).attemptsUsed = 2 := by
  have hf : isTimeoutError
      ['e', 'm', 'p', 't', 'y', ' ', 'e', 'n', 't', 'i', 't', 'y', '_',
       't', 'y', 'p', 'e'] = true := by decide
  unfold processEventRetry
  rw [attemptFrom_eq]
  simp only [validateEvent, h]
  rw [attemptFrom_eq]
  simp [validateEvent, h, retryBreak, hf, validateEventProbeCalls]

/-- Witness for `empty_entity_type_short_circuits` at a concrete input. -/
theorem empty_entity_type_short_circuits_witness :
    (processEventRetry probeOk evNoEntity 1 1).result.error =
      some "empty entity_type".toList ∧
    (processEventRetry probeOk evNoEntity 1 1).probeCalls = 0 ∧
    (processEventRetry probeOk evNoEntity 1 1).attemptsUsed = 2 :=
  empty_entity_type_short_circuits probeOk 1 1 evNoEntity (by decide)

/-- C8: an outcome of the retrying validator never simultaneously reports
the event as found and carries an error: `foundInDest = true` implies the
error is nil. -/
theorem found_implies_no_error (probe : Probe) (evt : Event) (timeoutSec : Nat)
    (documentIndex : Int)
    (h : (processEventRetry probe evt timeoutSec documentIndex).result.foundInDest = true) :
    (processEventRetry probe evt timeoutSec documentIndex).result.error = none := by
  obtain ⟨a, ha⟩ := attemptFrom_result_shape probe evt timeoutSec documentIndex 1 1
  unfold processEventRetry at h ⊢
  rw [ha] at h ⊢
  simp only [] at h ⊢
  exact validateEvent_found_imp probe evt (timeoutSec * a) h

/-- Witness for `found_implies_no_error` at a concrete input. -/
theorem found_implies_no_error_witness :
    (processEventRetry probeOk evA 1 1).result.error = none :=
  found_implies_no_error probeOk evA 1 1 (by decide)

/-! ### Claims about the cross-store escalator -/

/-- C1 counterexample: at a concrete input whose primary check FAILED
(`mongoFailResult` carries an error), the map-based
`ValidateAndCheckEventsMaps` still issues a secondary query (count 1) and
attaches a secondary result, and the CSV-variant `ValidateAndCheckEvents`
also attaches a (non-nil) secondary result record — contradicting "the
combined outcome carries no secondary check result and no secondary query is
executed" for a failed primary. -/
theorem escalation_on_failed_primary :
    (ValidateAndCheckEventsMaps stubNoRows defaultEventCollectionMap
        defaultEventNameMap evA mongoFailResult).2 = 1 ∧
    (ValidateAndCheckEventsMaps stubNoRows defaultEventCollectionMap
        defaultEventNameMap evA mongoFailResult).1.mysqlResult ≠ none ∧
    (ValidateAndCheckEvents [] countZero noDetails evA
        mongoFailResult).1.mysqlResult ≠ none := by
  decide

/-- C1 (amended): in the CSV-mapping escalator (the one the MySQL-enabled
main invokes) a secondary SQL query runs exactly when the primary check
succeeded AND a mapping exists for the event name, but the combined outcome
ALWAYS carries a secondary result record (with `found := false` and, for a
missing mapping, a "no mapping found" error) rather than omitting it; in the
map-based variant the secondary query runs whenever the requirement set for
the name is non-empty and the collection lookup resolves — regardless of the
primary outcome — and a secondary record is attached exactly when the
requirement set is non-empty. -/
theorem escalation_policy (mappings : List EventMapping)
    (countQuery : Str → Str → Int → Except Str Int)
    (detailsQuery : Str → Option MySQLEvent)
    (event : Event) (mongoResult : Result)
    (queryStub : Int → Str → Str → ScanOutcome)
    (collectionMap : EventCollectionMap) (eventNameMap : EventNameMap)
    (event2 : Event) (mongoResult2 : Result) :
    (ValidateAndCheckEvents mappings countQuery detailsQuery event
        mongoResult).1.mysqlResult ≠ none ∧
    (0 < (ValidateAndCheckEvents mappings countQuery detailsQuery event mongoResult).2 ↔
      (mongoResult.IsSuccess = true ∧
        (findMapping mappings event.eventName).isSome = true)) ∧
    (0 < (ValidateAndCheckEventsMaps queryStub collectionMap eventNameMap
        event2 mongoResult2).2 ↔
      (0 < (lookupNames eventNameMap event2.eventName).length ∧
        (lookupCollection collectionMap event2.entityType).isSome = true)) ∧
    ((ValidateAndCheckEventsMaps queryStub collectionMap eventNameMap
        event2 mongoResult2).1.mysqlResult ≠ none ↔
      0 < (lookupNames eventNameMap event2.eventName).length) := by
  refine ⟨?_, ?_, ?_, ?_⟩
  · unfold ValidateAndCheckEvents
    by_cases hs : mongoResult.IsSuccess <;> simp [hs]
    cases hm : findMapping mappings event.eventName with
    | none => simp
    | some mapping =>
        cases hc : countQuery mapping.oldEventName event.sessionId mapping.productType with
        | error e => simp [hc]
        | ok count => by_cases hcnt : (0 : Int) < count <;> simp [hc, hcnt]
  · unfold ValidateAndCheckEvents
    by_cases hs : mongoResult.IsSuccess <;> simp [hs]
    cases hm : findMapping mappings event.eventName with
    | none => simp
    | some mapping =>
        cases hc : countQuery mapping.oldEventName event.sessionId mapping.productType with
        | error e => simp [hc]
        | ok count => by_cases hcnt : (0 : Int) < count <;> simp [hc, hcnt]
  · unfold ValidateAndCheckEventsMaps CheckEventInMySQL
    by_cases hn : 0 < (lookupNames eventNameMap event2.eventName).length
    · have hn0 : ¬ (lookupNames eventNameMap event2.eventName).length = 0 :=
        Nat.pos_iff_ne_zero.mp hn
      simp only [hn, if_pos hn, if_neg hn0]
      cases hc : lookupCollection collectionMap event2.entityType with
      | none => simp [hc, hn]
      | some ptid =>
          cases hq : queryStub ptid event2.eventName event2.sessionId <;>
            simp [hc, hq, hn]
    · have hn0 : (lookupNames eventNameMap event2.eventName).length = 0 :=
        Nat.eq_zero_of_not_pos hn
      simp [hn, hn0]
  · unfold ValidateAndCheckEventsMaps
    by_cases hn : 0 < (lookupNames eventNameMap event2.eventName).length <;> simp [hn]

/-! ### Helper lemmas about the aggregation layer -/

/-- Inserting into the error dedup key set preserves distinctness. -/
theorem insertErrKey_nodup (keys : List Str) (msg : Str) (h : keys.Nodup) :
    (insertErrKey keys msg).Nodup := by
  unfold insertErrKey
  by_cases hm : msg ∈ keys <;> simp [hm, h, List.nodup_append]

/-- The error dedup key set is non-empty after any insertion. -/
theorem insertErrKey_ne_nil (keys : List Str) (msg : Str) :
    insertErrKey keys msg ≠ [] := by
  unfold insertErrKey
  by_cases hm : msg ∈ keys <;> simp [hm]
  exact List.ne_nil_of_mem hm

/-- The scan of `CreateMissingDataReport` keeps the error key set distinct. -/
theorem reportScan_errorKeys_nodup (results : List Result) :
    ∀ st : MissingDataState, st.errorKeys.Nodup →
      (results.foldl reportStep st).errorKeys.Nodup := by
  induction results with
  | nil => intro st h; simpa using h
  | cons r rs ih =>
      intro st h
      rw [List.foldl_cons]
      apply ih
      unfold reportStep
      cases hr : r.error with
      | none => by_cases hf : r.foundInDest <;> simp [hf, h]
      | some e => simpa using insertErrKey_nodup _ _ h

/-- The missing-event counter never decreases along the scan. -/
theorem reportScan_totalMissing_mono (results : List Result) :
    ∀ st : MissingDataState,
      st.totalMissing ≤ (results.foldl reportStep st).totalMissing := by
  induction results with
  | nil => intro st; simp
  | cons r rs ih =>
      intro st
      rw [List.foldl_cons]
      refine le_trans ?_ (ih (reportStep st r))
      unfold reportStep
      cases hr : r.error with
      | none => by_cases hf : r.foundInDest <;> simp [hf]
      | some e => simp

/-- A non-empty error key set stays non-empty along the scan. -/
theorem reportScan_errorKeys_ne_nil (results : List Result) :
    ∀ st : MissingDataState, st.errorKeys ≠ [] →
      (results.foldl reportStep st).errorKeys ≠ [] := by
  induction results with
  | nil => intro st h; simpa using h
  | cons r rs ih =>
      intro st h
      rw [List.foldl_cons]
      apply ih
      unfold reportStep
      cases hr : r.error with
      | none => by_cases hf : r.foundInDest <;> simp [hf, h]
      | some e => simpa using insertErrKey_ne_nil _ _

/-- An all-clear result leaves the report accumulator unchanged. -/
theorem reportStep_clear (st : MissingDataState) (r : Result)
    (h : resultAllClear r = true) : reportStep st r = st := by
  unfold resultAllClear at h
  simp only [Bool.and_eq_true, Option.isNone_iff_eq_none] at h
  obtain ⟨he, hf⟩ := h
  unfold reportStep
  simp [he, hf]

/-- A batch of all-clear results leaves the report accumulator unchanged. -/
theorem reportScan_clear (results : List Result)
    (h : ∀ r ∈ results, resultAllClear r = true) :
    ∀ st, results.foldl reportStep st = st := by
  induction results with
  | nil => intro st; simp
  | cons r rs ih =>
      intro st
      rw [List.foldl_cons, reportStep_clear st r (h r (by simp))]
      exact ih (fun x hx => h x (by simp [hx])) st

/-- An all-clear combined outcome leaves the enhanced accumulator unchanged. -/
theorem enhancedStep_clear (st : EnhancedState) (c : CombinedResult)
    (h : combinedAllClear c = true) : enhancedStep st c = st := by
  unfold combinedAllClear at h
  unfold enhancedStep
  cases hr : c.mongoResult.error with
  | some e => simp [hr] at h
  | none =>
      simp only [hr, Option.isNone_none, Bool.true_and, Bool.and_eq_true] at h
      obtain ⟨hf, hm⟩ := h
      simp only [hf, Bool.not_true, Bool.false_eq_true, if_neg]
      cases hmy : c.mysqlResult with
      | none => simp [hf]
      | some m =>
          simp only [hmy, Bool.and_eq_true, Option.isNone_iff_eq_none] at hm
          obtain ⟨hme, hmf⟩ := hm
          simp [hf, hme, hmf]

/-- A batch of all-clear combined outcomes leaves the enhanced accumulator
unchanged. -/
theorem enhancedScan_clear (crs : List CombinedResult)
    (h : ∀ c ∈ crs, combinedAllClear c = true) :
    ∀ st, crs.foldl enhancedStep st = st := by
  induction crs with
  | nil => intro st; simp
  | cons c cs ih =>
      intro st
      rw [List.foldl_cons, enhancedStep_clear st c (h c (by simp))]
      exact ih (fun x hx => h x (by simp [hx])) st

/-- Along the enhanced scan, the summary error counter always equals the
number of entries of the error report. -/
theorem enhancedScan_errorCount (crs : List CombinedResult) :
    ∀ st : EnhancedState, st.errorCount = st.errorEvents.length →
      (crs.foldl enhancedStep st).errorCount =
        (crs.foldl enhancedStep st).errorEvents.length := by
  induction crs with
  | nil => intro st h; simpa using h
  | cons c cs ih =>
      intro st h
      rw [List.foldl_cons]
      apply ih
      unfold enhancedStep
      cases hr : c.mongoResult.error with
      | some e => simp [h]
      | none =>
          by_cases hf : c.mongoResult.foundInDest
          · cases hmy : c.mysqlResult with
            | none => simp [hf, hmy, h]
            | some m =>
                cases hme : m.error with
                | some me =>
                    simp only [hf, hmy, hme]
                    simp [h]
                    split <;> simp [h]
                | none =>
                    by_cases hfnd : m.found <;> simp [hf, hmy, hme, hfnd, h]
          · simp [hf, h]

/-- A combined outcome that passed the primary check and whose secondary
error mentions "no mapping found" leaves the enhanced accumulator unchanged
(src/unnamed/part_000:401-406). -/
theorem enhancedStep_no_mapping_skip (st : EnhancedState) (c : CombinedResult)
    (m : MySQLEventResult) (e : Str)
    (h1 : c.mongoResult.error = none) (h2 : c.mongoResult.foundInDest = true)
    (h3 : c.mysqlResult = some m) (h4 : m.error = some e)
    (h5 : stringsContains e "no mapping found".toList = true) :
    enhancedStep st c = st := by
  unfold enhancedStep
  simp only [h1, h2, h3, h4, Bool.not_true]
  have h5n : stringsContains e
      ['n', 'o', ' ', 'm', 'a', 'p', 'p', 'i', 'n', 'g', ' ',
       'f', 'o', 'u', 'n', 'd'] = true := h5
  simp [h5n]

/-! ### Claims about the aggregation layer -/

/-- C5 counterexample: two outcomes with textually identical errors yield ONE
report entry and an error count of ONE (not two) in `CreateMissingDataReport`
(its only error counter is the length of the deduplicated list), while
`CreateEnhancedMissingDataReport` counts both occurrences but also keeps BOTH
entries (no deduplication) — neither aggregation pairs one entry with a count
of two as the claim states. -/
theorem identical_errors_entry_and_count :
    (distinctErrors [rBoom, rBoom]).length = 1 ∧
    (CreateMissingDataReport [rBoom, rBoom]
        (distinctErrors [rBoom, rBoom])).errors.length = 1 ∧
    (CreateEnhancedMissingDataReport [cErr, cErr]).1.errorCount = 2 ∧
    (CreateEnhancedMissingDataReport [cErr, cErr]).1.errorEvents.length = 2 := by
  decide

/-- C5 (amended): `CreateMissingDataReport` deduplicates formatted error
messages by exact string equality — its error list never holds a duplicate —
and its reported count is the post-deduplication count; in the enhanced
aggregation the summary error counter counts every occurrence and always
equals the length of the (unduplicated) error report. -/
theorem error_dedup_and_count (results : List Result) (crs : List CombinedResult) :
    (distinctErrors results).Nodup ∧
    (CreateEnhancedMissingDataReport crs).1.errorCount =
      (CreateEnhancedMissingDataReport crs).1.errorEvents.length := by
  constructor
  · exact reportScan_errorKeys_nodup results initMissingDataState List.nodup_nil
  · exact enhancedScan_errorCount crs initEnhancedState rfl

/-- C6 counterexample: on a fixed outcome set with two distinct error
messages, both enumeration orders of the dedup map's key set are valid Go
map range orders, and they produce DIFFERENT report contents — the error
list order is not deterministic across runs. -/
theorem report_error_order_nondeterministic :
    validRangeOrder cexResults orderAB ∧
    validRangeOrder cexResults orderBA ∧
    CreateMissingDataReport cexResults orderAB ≠
      CreateMissingDataReport cexResults orderBA := by
  refine ⟨?_, ?_, ?_⟩
  · unfold validRangeOrder orderAB
    exact List.Perm.refl _
  · unfold validRangeOrder orderBA
    exact List.reverse_perm _
  · decide

/-- C6 (amended): two runs of `CreateMissingDataReport` over the same outcome
set agree on the missing-event grouping, the total count and the
write-or-not decision, and their error lists agree up to permutation — but
only up to permutation: the error list order follows the Go map iteration
order (and the embedded timestamps also differ between runs), so
byte-identical output is not guaranteed. -/
theorem report_deterministic_up_to_error_order (results : List Result)
    (o1 o2 : List Str)
    (h1 : validRangeOrder results o1) (h2 : validRangeOrder results o2) :
    (CreateMissingDataReport results o1).byCollection =
      (CreateMissingDataReport results o2).byCollection ∧
    (CreateMissingDataReport results o1).totalCount =
      (CreateMissingDataReport results o2).totalCount ∧
    (CreateMissingDataReport results o1).written =
      (CreateMissingDataReport results o2).written ∧
    (CreateMissingDataReport results o1).errors.Perm
      (CreateMissingDataReport results o2).errors := by
  unfold validRangeOrder at h1 h2
  exact ⟨rfl, rfl, rfl, h1.trans h2.symm⟩

/-- Witness for `report_deterministic_up_to_error_order` on the concrete
two-error outcome set and its two range orders. -/
theorem report_deterministic_up_to_error_order_witness :
    (CreateMissingDataReport cexResults orderAB).byCollection =
      (CreateMissingDataReport cexResults orderBA).byCollection ∧
    (CreateMissingDataReport cexResults orderAB).totalCount =
      (CreateMissingDataReport cexResults orderBA).totalCount ∧
    (CreateMissingDataReport cexResults orderAB).written =
      (CreateMissingDataReport cexResults orderBA).written ∧
    (CreateMissingDataReport cexResults orderAB).errors.Perm
      (CreateMissingDataReport cexResults orderBA).errors :=
  report_deterministic_up_to_error_order cexResults orderAB orderBA
    (by unfold validRangeOrder orderAB; exact List.Perm.refl _)
    (by unfold validRangeOrder orderBA; exact List.reverse_perm _)

/-- C9: an outcome set with zero missing events and zero errors produces no
report output.  `CreateMissingDataReport` writes a file exactly when some
outcome is errored or missing; the enhanced aggregation writes nothing when
every combined outcome is all-clear, and whenever it writes (hasFailures)
some outcome was not all-clear. -/
theorem all_clear_no_report (results : List Result) (rangeOrder : List Str)
    (crs : List CombinedResult) :
    ((CreateMissingDataReport results rangeOrder).written = false ↔
      ∀ r ∈ results, resultAllClear r = true) ∧
    ((∀ c ∈ crs, combinedAllClear c = true) →
      (CreateEnhancedMissingDataReport crs).1.hasFailures = false) ∧
    ((CreateEnhancedMissingDataReport crs).1.hasFailures = true →
      ∃ c ∈ crs, combinedAllClear c = false) := by
  refine ⟨⟨?_, ?_⟩, ?_, ?_⟩
  · intro hw r hr
    by_contra hclear
    obtain ⟨s, t, rfl⟩ := List.append_of_mem hr
    unfold CreateMissingDataReport missingDataScan at hw
    rw [List.foldl_append, List.foldl_cons] at hw
    simp only [Bool.or_eq_false_iff, decide_eq_false_iff_not, Nat.not_lt,
      Nat.le_zero] at hw
    obtain ⟨hw1, hw2⟩ := hw
    set st1 := s.foldl reportStep initMissingDataState with hst1
    cases hre : r.error with
    | some e =>
        have hne : (reportStep st1 r).errorKeys ≠ [] := by
          unfold reportStep
          simp only [hre]
          exact insertErrKey_ne_nil _ _
        have := reportScan_errorKeys_ne_nil t (reportStep st1 r) hne
        exact this (List.length_eq_zero.mp hw2)
    | none =>
        have hfd : r.foundInDest = false := by
          cases hfd : r.foundInDest
          · rfl
          · exact absurd (by unfold resultAllClear; simp [hre, hfd]) hclear
        have hstep : (reportStep st1 r).totalMissing = st1.totalMissing + 1 := by
          unfold reportStep
          simp [hre, hfd]
        have hmono := reportScan_totalMissing_mono t (reportStep st1 r)
        rw [hstep] at hmono
        omega
  · intro hall
    unfold CreateMissingDataReport missingDataScan
    rw [reportScan_clear results hall]
    simp [initMissingDataState]
  · intro hall
    unfold CreateEnhancedMissingDataReport
    rw [enhancedScan_clear crs hall]
    rfl
  · intro hfail
    by_contra hnone
    push_neg at hnone
    have hall : ∀ c ∈ crs, combinedAllClear c = true := by
      intro c hc
      cases hcc : combinedAllClear c
      · exact absurd hcc (hnone c hc)
      · rfl
    have : (CreateEnhancedMissingDataReport crs).1.hasFailures = false := by
      unfold CreateEnhancedMissingDataReport
      rw [enhancedScan_clear crs hall]
      rfl
    rw [this] at hfail
    exact Bool.false_ne_true hfail

/-- C10: a combined outcome that passed the primary check and whose secondary
(MySQL) error message contains "no mapping found" is skipped silently by the
enhanced aggregation: removing it from any outcome set leaves every report
body, every counter and the `hasFailures` flag unchanged, and such an outcome
alone produces no report at all. -/
theorem no_mapping_outcome_skipped (c : CombinedResult) (m : MySQLEventResult)
    (e : Str) (pre post : List CombinedResult)
    (h1 : c.mongoResult.error = none) (h2 : c.mongoResult.foundInDest = true)
    (h3 : c.mysqlResult = some m) (h4 : m.error = some e)
    (h5 : stringsContains e "no mapping found".toList = true) :
    (CreateEnhancedMissingDataReport (pre ++ c :: post)).1 =
      (CreateEnhancedMissingDataReport (pre ++ post)).1 ∧
    (CreateEnhancedMissingDataReport [c]).1.hasFailures = false := by
  constructor
  · show (pre ++ c :: post).foldl enhancedStep initEnhancedState =
      (pre ++ post).foldl enhancedStep initEnhancedState
    rw [List.foldl_append, List.foldl_append, List.foldl_cons,
      enhancedStep_no_mapping_skip _ c m e h1 h2 h3 h4 h5]
  · show ([c].foldl enhancedStep initEnhancedState).hasFailures = false
    rw [List.foldl_cons, enhancedStep_no_mapping_skip _ c m e h1 h2 h3 h4 h5]
    rfl

/-- Witness for `no_mapping_outcome_skipped` on a concrete outcome set. -/
theorem no_mapping_outcome_skipped_witness :
    (CreateEnhancedMissingDataReport ([cClean] ++ cNoMapping :: [cMongoMiss])).1 =
      (CreateEnhancedMissingDataReport ([cClean] ++ [cMongoMiss])).1 ∧
    (CreateEnhancedMissingDataReport [cNoMapping]).1.hasFailures = false :=
  no_mapping_outcome_skipped cNoMapping mysqlNoMapResult
    ("no mapping found for event: ".toList ++ evA.eventName) [cClean] [cMongoMiss]
    rfl rfl rfl rfl (by decide)

end Analytics
